import Mathlib

/-!
Verification of the EC2 instance-discovery and label-synthesis pipeline
(`lib/promscrape/discovery/ec2/instance.go`).

The Go code is shallowly embedded below:
* XML wrapper structs become Lean structures with the same shape.
* Go maps (`map[string]string`, `map[string]bool`) are modelled as
  association lists in insertion order; a read returns the value of the
  last assignment to the key, or the zero value `""` when absent
  (`lookupLabel`), exactly the Go map semantics used by the code.
* The transport collaborator `getEC2APIResponse` lives outside the
  translated file, so it is modelled as an environment: the successive
  responses to `DescribeInstances` calls form a list (one entry per call,
  in call order), and `DescribeAvailabilityZones` is a function from the
  page token to a response.  A response is `Except String raw` for the
  transport layer, where the raw payload is `Option payload` — `none`
  models a byte string the XML decoder rejects.
* `fmt.Errorf` wrapping is modelled by string concatenation of the
  format prefix with the wrapped error.
-/

set_option autoImplicit false

namespace EC2

/-- Source struct `Tag`: a key/value pair attached to an instance. -/
structure Tag where
  key : String
  value : String
  deriving DecidableEq

/-- Source wrapper struct `TagSet`. -/
structure TagSet where
  items : List Tag
  deriving DecidableEq

/-- Source wrapper struct `Ipv6AddressesSet`. -/
structure Ipv6AddressesSet where
  items : List String
  deriving DecidableEq

/-- Source struct `NetworkInterface`: subnet id plus IPv6 addresses. -/
structure NetworkInterface where
  subnetId : String
  ipv6AddressesSet : Ipv6AddressesSet
  deriving DecidableEq

/-- Source wrapper struct `NetworkInterfaceSet`. -/
structure NetworkInterfaceSet where
  items : List NetworkInterface
  deriving DecidableEq

/-- Source struct `InstanceState`. -/
structure InstanceState where
  name : String
  deriving DecidableEq

/-- Source struct `Placement`. -/
structure Placement where
  availabilityZone : String
  deriving DecidableEq

/-- Source struct `Instance`. -/
structure Instance where
  privateIpAddress : String
  architecture : String
  placement : Placement
  imageId : String
  id : String
  lifecycle : String
  state : InstanceState
  instanceType : String
  platform : String
  subnetId : String
  privateDnsName : String
  publicDnsName : String
  publicIpAddress : String
  vpcId : String
  networkInterfaceSet : NetworkInterfaceSet
  tagSet : TagSet
  deriving DecidableEq

/-- Source wrapper struct `InstanceSet`. -/
structure InstanceSet where
  items : List Instance
  deriving DecidableEq

/-- Source struct `Reservation`: owner id plus its instances. -/
structure Reservation where
  ownerId : String
  instanceSet : InstanceSet
  deriving DecidableEq

/-- Source wrapper struct `ReservationSet`. -/
structure ReservationSet where
  items : List Reservation
  deriving DecidableEq

/-- Source struct `InstancesResponse`: one `DescribeInstances` page. -/
structure InstancesResponse where
  reservationSet : ReservationSet
  nextPageToken : String
  deriving DecidableEq

/-- Source struct `AvailabilityZone`. -/
structure AvailabilityZone where
  zoneName : String
  zoneId : String
  deriving DecidableEq

/-- Source wrapper struct `AvailabilityZoneInfo`. -/
structure AvailabilityZoneInfo where
  items : List AvailabilityZone
  deriving DecidableEq

/-- Source struct `AvailabilityZonesResponse`.  Note that it has no
next-token field: the Go struct declares none, so `xml.Unmarshal` drops
any continuation token present in the raw document. -/
structure AvailabilityZonesResponse where
  availabilityZoneInfo : AvailabilityZoneInfo
  deriving DecidableEq

/-- The raw wire document of a `DescribeAvailabilityZones` response: the
zone list plus whatever continuation token the provider put into the
document.  The source's parse step (`parseAvailabilityZonesResponse` via
`xml.Unmarshal` into `AvailabilityZonesResponse`) keeps only the zone
list. -/
structure ZoneListDocument where
  zones : List AvailabilityZone
  nextToken : String
  deriving DecidableEq

/-- A label map / Go `map[string]string`, as the association list of the
assignments performed on it, in program order. -/
abbrev LabelMap := List (String × String)

/-- Go map read with overwrite semantics: the value of the last
assignment to `k` in the list, if any. -/
def lookupOpt : LabelMap → String → Option String
  | [], _ => none
  | p :: rest, k =>
    match lookupOpt rest k with
    | some v => some v
    | none => if p.1 = k then some p.2 else none

/-- Go map read `m[k]`: last assignment to `k`, or the zero value `""`. -/
def lookupLabel (m : LabelMap) (k : String) : String :=
  (lookupOpt m k).getD ""

/-- Whether the Go map holds key `k` (`_, ok := m[k]`). -/
def hasLabel (m : LabelMap) (k : String) : Bool :=
  (lookupOpt m k).isSome

/-- Modelled from the spec: `discoveryutils.SanitizeLabelName` is not
under `src/` (only its caller is).  The spec says the tag key is
sanitized "into a label-safe token (non-alphanumeric characters
normalized)": every character that is not a letter, a digit or an
underscore is replaced by an underscore. -/
def sanitizeLabelName (s : String) : String :=
  ⟨s.data.map (fun c => if c.isAlphanum ∨ c = '_' then c else '_')⟩

/-- Modelled from the spec: `discoveryutils.JoinHostPort` is not under
`src/` (only its caller is).  The spec says the address label joins the
private IP and the configured port as `privateIp:port`. -/
def joinHostPort (host : String) (port : Nat) : String :=
  host ++ ":" ++ toString port

/-- The network-interface loop of `appendTargetLabels` (lines 222-233):
interfaces whose subnet id is empty are skipped entirely (`continue`);
otherwise the subnet id is appended when not seen before, and the
interface's IPv6 addresses are appended.  Returns the collected
(`subnets`, `ipv6Addrs`). -/
def collectNI : List NetworkInterface → List String → List String → List String →
    List String × List String
  | [], _, subnets, ipv6 => (subnets, ipv6)
  | ni :: rest, seen, subnets, ipv6 =>
    if ni.subnetId = "" then
      collectNI rest seen subnets ipv6
    else if ni.subnetId ∈ seen then
      collectNI rest seen subnets (ipv6 ++ ni.ipv6AddressesSet.items)
    else
      collectNI rest (ni.subnetId :: seen) (subnets ++ [ni.subnetId])
        (ipv6 ++ ni.ipv6AddressesSet.items)

/-- The tag loop of `appendTargetLabels` (lines 241-247): tags with an
empty key or an empty value are skipped; each kept tag assigns
`m["__meta_ec2_tag_" + sanitized key] = value`, later assignments
overwriting earlier ones (overwrite is the map-read semantics of
`lookupLabel`). -/
def tagLabels (ts : List Tag) : LabelMap :=
  ts.filterMap (fun t =>
    if t.key = "" ∨ t.value = "" then none
    else some ("__meta_ec2_tag_" ++ sanitizeLabelName t.key, t.value))

/-- The map literal of `appendTargetLabels` (lines 199-217): the 17
fixed label assignments. -/
def baseLabels (inst : Instance) (ownerId : String) (port : Nat)
    (azMap : LabelMap) : LabelMap :=
  [("__address__", joinHostPort inst.privateIpAddress port),
    ("__meta_ec2_architecture", inst.architecture),
    ("__meta_ec2_ami", inst.imageId),
    ("__meta_ec2_availability_zone", inst.placement.availabilityZone),
    ("__meta_ec2_availability_zone_id", lookupLabel azMap inst.placement.availabilityZone),
    ("__meta_ec2_instance_id", inst.id),
    ("__meta_ec2_instance_lifecycle", inst.lifecycle),
    ("__meta_ec2_instance_state", inst.state.name),
    ("__meta_ec2_instance_type", inst.instanceType),
    ("__meta_ec2_owner_id", ownerId),
    ("__meta_ec2_platform", inst.platform),
    ("__meta_ec2_primary_subnet_id", inst.subnetId),
    ("__meta_ec2_private_dns_name", inst.privateDnsName),
    ("__meta_ec2_private_ip", inst.privateIpAddress),
    ("__meta_ec2_public_dns_name", inst.publicDnsName),
    ("__meta_ec2_public_ip", inst.publicIpAddress),
    ("__meta_ec2_vpc_id", inst.vpcId)]

/-- The state of the map `m` of `appendTargetLabels` after the VPC
block (lines 199-240), before the tag loop: the 17 fixed assignments,
then, when the VPC id is non-empty, the subnet-id label and, if any
IPv6 address was collected, the IPv6 label. -/
def preTagLabels (inst : Instance) (ownerId : String) (port : Nat)
    (azMap : LabelMap) : LabelMap :=
  if inst.vpcId = "" then baseLabels inst ownerId port azMap
  else if (collectNI inst.networkInterfaceSet.items [] [] []).2 = [] then
    baseLabels inst ownerId port azMap ++
      [("__meta_ec2_subnet_id",
        "," ++ String.intercalate "," (collectNI inst.networkInterfaceSet.items [] [] []).1 ++ ",")]
  else
    baseLabels inst ownerId port azMap ++
      [("__meta_ec2_subnet_id",
        "," ++ String.intercalate "," (collectNI inst.networkInterfaceSet.items [] [] []).1 ++ ",")] ++
      [("__meta_ec2_ipv6_addresses",
        "," ++ String.intercalate "," (collectNI inst.networkInterfaceSet.items [] [] []).2 ++ ",")]

/-- The label map `m` built by `appendTargetLabels` (lines 198-247) for
an instance with a non-empty private IP: the pre-tag assignments
followed by the tag-loop assignments. -/
def targetLabelMap (inst : Instance) (ownerId : String) (port : Nat)
    (azMap : LabelMap) : LabelMap :=
  preTagLabels inst ownerId port azMap ++ tagLabels inst.tagSet.items

/-- Source method `(*Instance).appendTargetLabels` (lines 193-250): an instance
without a private IP address contributes nothing; otherwise exactly one
label map is appended to `ms`. -/
def Instance.appendTargetLabels (inst : Instance) (ms : List LabelMap)
    (ownerId : String) (port : Nat) (azMap : LabelMap) : List LabelMap :=
  if inst.privateIpAddress = "" then ms
  else ms ++ [targetLabelMap inst ownerId port azMap]

/-- The nested loop of `getInstancesLabels` (lines 19-24): fold
`appendTargetLabels` over every instance of every reservation, starting
from the empty list. -/
def buildLabels (rs : List Reservation) (port : Nat) (azMap : LabelMap) :
    List LabelMap :=
  rs.foldl (fun ms r =>
    r.instanceSet.items.foldl
      (fun acc i => i.appendTargetLabels acc r.ownerId port azMap) ms) []

/-- Modelled from the spec: the transport collaborator
(`getEC2APIResponse`, not under `src/`) answers each `DescribeInstances`
call with either a transport error or a raw payload; `none` stands for a
payload the XML decoder rejects. -/
abbrev InstPage := Except String (Option InstancesResponse)

/-- Source function `parseInstancesResponse` (lines 128-134): decoding the raw payload
either fails (wrapping the offending payload) or yields the typed
response. -/
def parseInstancesResponse : Option InstancesResponse →
    Except String InstancesResponse
  | none => Except.error "cannot unmarshal InstancesResponse"
  | some v => Except.ok v

/-- The loop body of `getReservations` (lines 30-46), with the remaining
transport responses made explicit: each iteration consumes the next
response (recording the page token it was requested with), appends the
parsed reservations, and either returns when the next-token is empty or
continues with that token.  An exhausted response list models the
transport failing on the next call.  Returns the `getReservations`
result together with the trace of page tokens passed to the API, in call
order. -/
def getReservationsGo : List InstPage → String → List Reservation → List String →
    Except String (List Reservation) × List String
  | [], tok, _, trace =>
    (Except.error "cannot obtain instances: transport unavailable", trace ++ [tok])
  | page :: rest, tok, acc, trace =>
    match page with
    | Except.error e =>
      (Except.error ("cannot obtain instances: " ++ e), trace ++ [tok])
    | Except.ok raw =>
      match parseInstancesResponse raw with
      | Except.error e =>
        (Except.error ("cannot parse instance list: " ++ e), trace ++ [tok])
      | Except.ok ir =>
        let acc2 := acc ++ ir.reservationSet.items
        if ir.nextPageToken = "" then (Except.ok acc2, trace ++ [tok])
        else getReservationsGo rest ir.nextPageToken acc2 (trace ++ [tok])

/-- Source function `getReservations` (lines 28-47): run the pagination loop starting
from the empty page token with an empty accumulator. -/
def getReservations (pages : List InstPage) : Except String (List Reservation) :=
  (getReservationsGo pages "" [] []).1

/-- The page tokens `getReservations` passes to the API, in call order. -/
def getReservationsTrace (pages : List InstPage) : List String :=
  (getReservationsGo pages "" [] []).2

/-- Modelled from the spec: the transport collaborator answering
`DescribeAvailabilityZones` calls, as a function from the page token to
a transport result; `none` stands for a payload the XML decoder
rejects. -/
abbrev ZoneApi := String → Except String (Option ZoneListDocument)

/-- Source function `parseAvailabilityZonesResponse` (lines 185-191): decoding keeps
only the fields of the Go struct, so any continuation token in the raw
document is dropped. -/
def parseAvailabilityZonesResponse : Option ZoneListDocument →
    Except String AvailabilityZonesResponse
  | none => Except.error "cannot unmarshal DescribeAvailabilityZonesResponse"
  | some d => Except.ok ⟨⟨d.zones⟩⟩

/-- Source function `getAvailabilityZones` (lines 156-167): a single
`DescribeAvailabilityZones` request with the empty page token, then one
parse; no loop. -/
def getAvailabilityZones (zapi : ZoneApi) : Except String (List AvailabilityZone) :=
  match zapi "" with
  | Except.error e => Except.error ("cannot obtain availability zones: " ++ e)
  | Except.ok data =>
    match parseAvailabilityZonesResponse data with
    | Except.error e =>
      Except.error ("cannot parse availability zones list: " ++ e)
    | Except.ok azr => Except.ok azr.availabilityZoneInfo.items

/-- The `apiConfig` state the file uses: the scrape port and the lazily
populated availability-zone cache (`nil` before the first resolution, a
possibly empty map afterwards).  The mutex only serializes access and
has no sequential content. -/
structure ApiConfig where
  port : Nat
  azMap : Option LabelMap
  deriving DecidableEq

/-- Source function `getAZMap` (lines 136-154): return the cached map when present;
otherwise fetch the zone list once, cache (and return) the empty map on
failure, and otherwise cache the map assigning each zone's id to its
name, in list order.  The third component counts the zone-list fetch
attempts this call performed (0 or 1). -/
def getAZMap (zapi : ZoneApi) (cfg : ApiConfig) : LabelMap × ApiConfig × Nat :=
  match cfg.azMap with
  | some m => (m, cfg, 0)
  | none =>
    match getAvailabilityZones zapi with
    | Except.error _ => ([], { cfg with azMap := some [] }, 1)
    | Except.ok azs =>
      let m := azs.map (fun az => (az.zoneName, az.zoneId))
      (m, { cfg with azMap := some m }, 1)

/-- Source function `getInstancesLabels` (lines 12-26): fetch all reservation pages
(failing the whole call on any page error), resolve the zone map, and
build the label list.  Returns the result together with the updated
config state. -/
def getInstancesLabels (pages : List InstPage) (zapi : ZoneApi)
    (cfg : ApiConfig) : Except String (List LabelMap) × ApiConfig :=
  match getReservations pages with
  | Except.error e => (Except.error e, cfg)
  | Except.ok rs =>
    let res := getAZMap zapi cfg
    (Except.ok (buildLabels rs cfg.port res.1), res.2.1)

/-- First-occurrence-wins de-duplication relative to an already-seen
set: the spec-side description of the subnet-id collection. -/
def dedupSeen : List String → List String → List String
  | [], _ => []
  | x :: xs, seen =>
    if x ∈ seen then dedupSeen xs seen else x :: dedupSeen xs (x :: seen)

/-- First-occurrence-wins de-duplication, order preserved. -/
def dedupFirst (l : List String) : List String :=
  dedupSeen l []

/-- The fixed label names every produced label map carries (the keys of
the map literal, lines 199-217). -/
def fixedLabelNames : List String :=
  ["__address__", "__meta_ec2_architecture", "__meta_ec2_ami",
   "__meta_ec2_availability_zone", "__meta_ec2_availability_zone_id",
   "__meta_ec2_instance_id", "__meta_ec2_instance_lifecycle",
   "__meta_ec2_instance_state", "__meta_ec2_instance_type",
   "__meta_ec2_owner_id", "__meta_ec2_platform",
   "__meta_ec2_primary_subnet_id", "__meta_ec2_private_dns_name",
   "__meta_ec2_private_ip", "__meta_ec2_public_dns_name",
   "__meta_ec2_public_ip", "__meta_ec2_vpc_id"]

/-! ### Concrete sample data, used by counterexamples and witnesses -/

/-- Sample-instance builder: fixed scalar attributes, with the private
IP, VPC id, interfaces and tags varying. -/
def mkInst (ip vpc : String) (nis : List NetworkInterface) (tags : List Tag) :
    Instance :=
  ⟨ip, "x86_64", ⟨"us-east-1a"⟩, "ami-123", "i-abc", "spot", ⟨"running"⟩,
   "t3.micro", "linux", "subnet-prim", "priv.example", "pub.example",
   "198.51.100.7", vpc, ⟨nis⟩, ⟨tags⟩⟩

/-- Sample instance whose second interface has an empty subnet id but a
non-empty IPv6 list. -/
def instIpv6Skip : Instance :=
  mkInst "10.0.0.1" "vpc-1"
    [⟨"s1", ⟨["a", "b"]⟩⟩, ⟨"", ⟨["x"]⟩⟩, ⟨"s2", ⟨["c"]⟩⟩] []

/-- Sample instance with interface subnet ids `s1, s1, s2, "", s3`. -/
def instSubnets : Instance :=
  mkInst "10.0.0.2" "vpc-1"
    [⟨"s1", ⟨["a"]⟩⟩, ⟨"s1", ⟨[]⟩⟩, ⟨"s2", ⟨[]⟩⟩, ⟨"", ⟨[]⟩⟩, ⟨"s3", ⟨[]⟩⟩] []

/-- Sample instance with skipped and colliding tags: `Env:Prod` and
`Env_Prod` sanitize to the same label name. -/
def instTags : Instance :=
  mkInst "10.0.0.3" "vpc-1" []
    [⟨"Env:Prod", "v1"⟩, ⟨"", "x"⟩, ⟨"k", ""⟩, ⟨"Env_Prod", "v2"⟩]

/-- Sample instance with an empty VPC id but interfaces carrying subnet
ids and IPv6 addresses. -/
def instNoVpc : Instance :=
  mkInst "10.0.0.4" "" [⟨"s1", ⟨["a"]⟩⟩] [⟨"Name", "box"⟩]

/-- Sample instance without a private IP address. -/
def instNoIp : Instance :=
  mkInst "" "vpc-1" [⟨"s1", ⟨["a"]⟩⟩] []

/-- Sample availability zones. -/
def zoneA : AvailabilityZone := ⟨"us-east-1a", "use1-az1"⟩

def zoneB : AvailabilityZone := ⟨"us-east-1b", "use1-az2"⟩

/-- Zone API whose first page carries a continuation token leading to a
second page with one more zone. -/
def c3zoneApi : ZoneApi := fun tok =>
  if tok = "" then Except.ok (some ⟨[zoneA], "next-page"⟩)
  else if tok = "next-page" then Except.ok (some ⟨[zoneB], ""⟩)
  else Except.error "unknown token"

/-- Zone API that always fails at the transport layer. -/
def zapiFail : ZoneApi := fun _ => Except.error "request failed"

/-- Zone API that always returns one zone and no continuation token. -/
def zapiOk : ZoneApi := fun _ => Except.ok (some ⟨[zoneA], ""⟩)

/-- Sample reservation builder. -/
def resv (o : String) (is : List Instance) : Reservation := ⟨o, ⟨is⟩⟩

/-- Sample page builder. -/
def pageOf (rs : List Reservation) (tok : String) : InstancesResponse :=
  ⟨⟨rs⟩, tok⟩

/-- Three sample pages: the first two carry continuation tokens, the
last does not. -/
def c6resps : List InstancesResponse :=
  [pageOf [resv "o1" [instIpv6Skip]] "t2",
   pageOf [resv "o2" [instNoIp]] "t3",
   pageOf [resv "o3" [instTags]] ""]

/-- One sample page whose continuation token is non-empty. -/
def c7goodPage : InstancesResponse := pageOf [resv "o1" [instIpv6Skip]] "t2"

/-- A single complete sample page for a full discovery run. -/
def c9pages : List InstPage :=
  [Except.ok (some (pageOf [resv "owner1" [instIpv6Skip, instNoIp, instNoVpc]] ""))]

/-! ### Map-read lemmas -/

@[simp] theorem lookupOpt_nil (k : String) : lookupOpt [] k = none := rfl

theorem lookupOpt_cons (p : String × String) (l : LabelMap) (k : String) :
    lookupOpt (p :: l) k =
      match lookupOpt l k with
      | some v => some v
      | none => if p.1 = k then some p.2 else none := rfl

theorem lookupOpt_append (l₁ l₂ : LabelMap) (k : String) :
    lookupOpt (l₁ ++ l₂) k =
      match lookupOpt l₂ k with
      | some v => some v
      | none => lookupOpt l₁ k := by
  induction l₁ with
  | nil => simp; cases lookupOpt l₂ k <;> rfl
  | cons p l ih =>
    rw [List.cons_append, lookupOpt_cons, ih, lookupOpt_cons]
    cases lookupOpt l₂ k <;> cases lookupOpt l k <;> simp

theorem lookupOpt_append_of_none (l₁ l₂ : LabelMap) (k : String)
    (h : lookupOpt l₂ k = none) : lookupOpt (l₁ ++ l₂) k = lookupOpt l₁ k := by
  rw [lookupOpt_append, h]

theorem lookupOpt_append_isSome (l₁ l₂ : LabelMap) (k : String)
    (h : (lookupOpt l₁ k).isSome) : (lookupOpt (l₁ ++ l₂) k).isSome := by
  rw [lookupOpt_append]
  cases lookupOpt l₂ k <;> simp [h]

/-! ### String helpers for label-name disjointness -/

theorem string_append_left_inj (p a b : String) (h : p ++ a = p ++ b) : a = b := by
  apply String.ext
  have hd := congrArg String.data h
  rw [String.data_append, String.data_append] at hd
  exact List.append_cancel_left hd

/-- A tag label name, which always starts with the 15 characters
`__meta_ec2_tag_`, never collides with a string whose first 15
characters differ from that. -/
theorem tagKey_ne (s : String)
    (h : s.data.take 15 ≠ ("__meta_ec2_tag_" : String).data) (n : String) :
    ("__meta_ec2_tag_" : String) ++ n ≠ s := by
  intro he
  apply h
  have h15 : ("__meta_ec2_tag_" : String).data.length = 15 := by decide
  rw [← he, String.data_append, ← h15, List.take_left]

/-! ### Tag-label lemmas -/

theorem tagLabels_cons (t : Tag) (ts : List Tag) :
    tagLabels (t :: ts) =
      (if t.key = "" ∨ t.value = "" then []
       else [("__meta_ec2_tag_" ++ sanitizeLabelName t.key, t.value)]) ++ tagLabels ts := by
  by_cases h : t.key = "" ∨ t.value = "" <;>
    simp [tagLabels, List.filterMap_cons, h]

/-- A string that no tag label name can equal is absent from the tag
segment of the map. -/
theorem lookupOpt_tagLabels_ne (ts : List Tag) (s : String)
    (h : ∀ n, ("__meta_ec2_tag_" : String) ++ n ≠ s) :
    lookupOpt (tagLabels ts) s = none := by
  induction ts with
  | nil => rfl
  | cons t ts ih =>
    rw [tagLabels_cons]
    by_cases hk : t.key = "" ∨ t.value = ""
    · simpa [hk] using ih
    · simp only [hk, if_false, List.singleton_append, lookupOpt_cons, ih]
      simp [h (sanitizeLabelName t.key)]

/-- Reading a tag label from the tag segment returns the value of the
last tag whose key and value are non-empty and whose sanitized key is
`n`. -/
theorem lookupOpt_tagLabels (ts : List Tag) (n : String) :
    lookupOpt (tagLabels ts) ("__meta_ec2_tag_" ++ n) =
      ((ts.filter (fun t =>
          t.key ≠ "" ∧ t.value ≠ "" ∧ sanitizeLabelName t.key = n)).getLast?).map
        Tag.value := by
  induction ts with
  | nil => rfl
  | cons t ts ih =>
    rw [tagLabels_cons, List.filter_cons]
    by_cases hk : t.key = "" ∨ t.value = ""
    · have hp : (decide (t.key ≠ "" ∧ t.value ≠ "" ∧ sanitizeLabelName t.key = n)) =
          false := by
        rcases hk with hk | hk <;> simp [hk]
      rw [if_pos hk, hp, List.nil_append]
      simp only [Bool.false_eq_true, if_false]
      exact ih
    · have hcond := hk
      push_neg at hk
      rw [if_neg hcond, List.singleton_append, lookupOpt_cons, ih]
      by_cases hs : sanitizeLabelName t.key = n
      · have hpt : (decide (t.key ≠ "" ∧ t.value ≠ "" ∧ sanitizeLabelName t.key = n)) =
            true := by simp [hk.1, hk.2, hs]
        rw [hpt, if_pos rfl, List.getLast?_cons]
        cases hlast : (ts.filter (fun t =>
            t.key ≠ "" ∧ t.value ≠ "" ∧ sanitizeLabelName t.key = n)).getLast?
        · simp [hs]
        · simp
      · have hpt : (decide (t.key ≠ "" ∧ t.value ≠ "" ∧ sanitizeLabelName t.key = n)) =
            false := by simp [hs]
        rw [hpt]
        simp only [Bool.false_eq_true, if_false]
        have hne : ("__meta_ec2_tag_" ++ sanitizeLabelName t.key : String) ≠
            "__meta_ec2_tag_" ++ n := by
          intro he
          exact hs (string_append_left_inj _ _ _ he)
        cases hlast : (ts.filter (fun t =>
            t.key ≠ "" ∧ t.value ≠ "" ∧ sanitizeLabelName t.key = n)).getLast?
        · simp [hne]
        · simp

/-! ### Network-interface loop characterization -/

/-- The interface loop collects exactly the first-seen-deduplicated
non-empty subnet ids and the concatenated IPv6 lists of the interfaces
whose subnet id is non-empty. -/
theorem collectNI_eq (nis : List NetworkInterface) :
    ∀ (seen subnets ipv6 : List String),
      collectNI nis seen subnets ipv6 =
        (subnets ++ dedupSeen
            ((nis.filter (fun ni => ni.subnetId ≠ "")).map (fun ni => ni.subnetId)) seen,
         ipv6 ++ (nis.filter (fun ni => ni.subnetId ≠ "")).flatMap
            (fun ni => ni.ipv6AddressesSet.items)) := by
  induction nis with
  | nil => intro seen subnets ipv6; simp [collectNI, dedupSeen]
  | cons ni rest ih =>
    intro seen subnets ipv6
    by_cases h : ni.subnetId = ""
    · simp [collectNI, h, ih, List.filter_cons]
    · by_cases hs : ni.subnetId ∈ seen
      · simp [collectNI, h, hs, ih, List.filter_cons, dedupSeen, List.flatMap_cons,
          List.append_assoc]
      · simp [collectNI, h, hs, ih, List.filter_cons, dedupSeen, List.flatMap_cons,
          List.append_assoc]

/-! ### Lookups in the built label map -/

theorem lookupOpt_eq_none_of_ne (m : LabelMap) (k : String)
    (h : ∀ p ∈ m, p.1 ≠ k) : lookupOpt m k = none := by
  induction m with
  | nil => rfl
  | cons p l ih =>
    rw [lookupOpt_cons, ih (fun q hq => h q (List.mem_cons_of_mem _ hq))]
    simp [h p (List.mem_cons_self _ _)]

/-- The key list of the fixed label-map literal. -/
theorem baseLabels_keys (inst : Instance) (o : String) (port : Nat)
    (az : LabelMap) :
    (baseLabels inst o port az).map Prod.fst =
      ["__address__", "__meta_ec2_architecture", "__meta_ec2_ami",
       "__meta_ec2_availability_zone", "__meta_ec2_availability_zone_id",
       "__meta_ec2_instance_id", "__meta_ec2_instance_lifecycle",
       "__meta_ec2_instance_state", "__meta_ec2_instance_type",
       "__meta_ec2_owner_id", "__meta_ec2_platform",
       "__meta_ec2_primary_subnet_id", "__meta_ec2_private_dns_name",
       "__meta_ec2_private_ip", "__meta_ec2_public_dns_name",
       "__meta_ec2_public_ip", "__meta_ec2_vpc_id"] := rfl

/-- No tag label name collides with a key of the fixed label-map
literal. -/
theorem lookupOpt_base_tagKey (inst : Instance) (o : String) (port : Nat)
    (az : LabelMap) (n : String) :
    lookupOpt (baseLabels inst o port az) ("__meta_ec2_tag_" ++ n) = none := by
  apply lookupOpt_eq_none_of_ne
  intro p hp
  have hk : p.1 ∈ (baseLabels inst o port az).map Prod.fst :=
    List.mem_map_of_mem _ hp
  rw [baseLabels_keys] at hk
  simp only [List.mem_cons, List.not_mem_nil, or_false] at hk
  rcases hk with h|h|h|h|h|h|h|h|h|h|h|h|h|h|h|h|h <;> rw [h] <;>
    exact Ne.symm (tagKey_ne _ (by decide) n)

/-- Reading a non-tag label name is unaffected by the tag loop. -/
theorem lookupOpt_target_fixed (inst : Instance) (o : String) (port : Nat)
    (az : LabelMap) (s : String)
    (h : s.data.take 15 ≠ ("__meta_ec2_tag_" : String).data) :
    lookupOpt (targetLabelMap inst o port az) s =
      lookupOpt (preTagLabels inst o port az) s := by
  unfold targetLabelMap
  exact lookupOpt_append_of_none _ _ _ (lookupOpt_tagLabels_ne _ _ (tagKey_ne s h))

/-- Reading a label name other than the subnet-id and IPv6 names is
unaffected by the VPC block. -/
theorem lookupOpt_preTag_base (inst : Instance) (o : String) (port : Nat)
    (az : LabelMap) (s : String)
    (hs1 : s ≠ "__meta_ec2_subnet_id") (hs2 : s ≠ "__meta_ec2_ipv6_addresses") :
    lookupOpt (preTagLabels inst o port az) s =
      lookupOpt (baseLabels inst o port az) s := by
  unfold preTagLabels
  split
  · rfl
  split
  · rw [lookupOpt_append_of_none]
    simp [lookupOpt, Ne.symm hs1]
  · rw [List.append_assoc, lookupOpt_append_of_none]
    simp [lookupOpt, Ne.symm hs1, Ne.symm hs2]

theorem lookupOpt_base_address (inst : Instance) (o : String) (port : Nat)
    (az : LabelMap) :
    lookupOpt (baseLabels inst o port az) "__address__" =
      some (joinHostPort inst.privateIpAddress port) := by
  simp [baseLabels, lookupOpt]

theorem lookupOpt_base_az (inst : Instance) (o : String) (port : Nat)
    (az : LabelMap) :
    lookupOpt (baseLabels inst o port az) "__meta_ec2_availability_zone" =
      some inst.placement.availabilityZone := by
  simp [baseLabels, lookupOpt]

theorem lookupOpt_base_azid (inst : Instance) (o : String) (port : Nat)
    (az : LabelMap) :
    lookupOpt (baseLabels inst o port az) "__meta_ec2_availability_zone_id" =
      some (lookupLabel az inst.placement.availabilityZone) := by
  simp [baseLabels, lookupOpt]

theorem lookupOpt_base_vpc (inst : Instance) (o : String) (port : Nat)
    (az : LabelMap) :
    lookupOpt (baseLabels inst o port az) "__meta_ec2_vpc_id" =
      some inst.vpcId := by
  simp [baseLabels, lookupOpt]

theorem lookupOpt_base_subnet (inst : Instance) (o : String) (port : Nat)
    (az : LabelMap) :
    lookupOpt (baseLabels inst o port az) "__meta_ec2_subnet_id" = none := by
  simp [baseLabels, lookupOpt]

theorem lookupOpt_base_ipv6 (inst : Instance) (o : String) (port : Nat)
    (az : LabelMap) :
    lookupOpt (baseLabels inst o port az) "__meta_ec2_ipv6_addresses" = none := by
  simp [baseLabels, lookupOpt]

/-! ### Label-list construction (`getInstancesLabels` loop) -/

theorem appendTargetLabels_eq (inst : Instance) (ms : List LabelMap)
    (o : String) (port : Nat) (az : LabelMap) :
    inst.appendTargetLabels ms o port az =
      ms ++ (if inst.privateIpAddress = "" then []
             else [targetLabelMap inst o port az]) := by
  unfold Instance.appendTargetLabels
  split <;> simp

theorem foldl_appendTargetLabels (instances : List Instance) (o : String)
    (port : Nat) (az : LabelMap) : ∀ (ms : List LabelMap),
    instances.foldl (fun acc i => i.appendTargetLabels acc o port az) ms =
      ms ++ ((instances.filter (fun i => i.privateIpAddress ≠ "")).map
        (fun i => targetLabelMap i o port az)) := by
  induction instances with
  | nil => simp
  | cons i rest ih =>
    intro ms
    rw [List.foldl_cons, appendTargetLabels_eq, ih, List.filter_cons]
    by_cases h : i.privateIpAddress = "" <;> simp [h]

theorem lookupOpt_isSome_of_mem (m : LabelMap) (k : String)
    (h : k ∈ m.map Prod.fst) : (lookupOpt m k).isSome := by
  induction m with
  | nil => simp at h
  | cons p l ih =>
    simp only [List.map_cons, List.mem_cons] at h
    rw [lookupOpt_cons]
    cases hl : lookupOpt l k with
    | some v => simp
    | none =>
      rcases h with h | h
      · simp [h]
      · have hs := ih h
        rw [hl] at hs
        simp at hs

/-- Every fixed label name is present in the built label map. -/
theorem hasLabel_target_fixed (inst : Instance) (o : String) (port : Nat)
    (az : LabelMap) (s : String) (hs : s ∈ fixedLabelNames) :
    hasLabel (targetLabelMap inst o port az) s = true := by
  have h1 : (lookupOpt (baseLabels inst o port az) s).isSome := by
    apply lookupOpt_isSome_of_mem
    rw [baseLabels_keys]
    exact hs
  have h2 : (lookupOpt (preTagLabels inst o port az) s).isSome := by
    unfold preTagLabels
    split
    · exact h1
    split
    · exact lookupOpt_append_isSome _ _ _ h1
    · rw [List.append_assoc]
      exact lookupOpt_append_isSome _ _ _ h1
  have h3 := lookupOpt_append_isSome _ (tagLabels inst.tagSet.items) _ h2
  simpa [hasLabel, targetLabelMap] using h3

theorem joinHostPort_ne_empty (host : String) (port : Nat) :
    joinHostPort host port ≠ "" := by
  intro he
  have hl := congrArg String.length he
  rw [joinHostPort, String.length_append, String.length_append,
    show (":" : String).length = 1 from rfl,
    show ("" : String).length = 0 from rfl] at hl
  omega

theorem lookupLabel_target_address (inst : Instance) (o : String) (port : Nat)
    (az : LabelMap) :
    lookupLabel (targetLabelMap inst o port az) "__address__" =
      joinHostPort inst.privateIpAddress port := by
  unfold lookupLabel
  rw [lookupOpt_target_fixed _ _ _ _ _ (by decide),
    lookupOpt_preTag_base _ _ _ _ _ (by decide) (by decide),
    lookupOpt_base_address]
  rfl

theorem lookupLabel_target_az (inst : Instance) (o : String) (port : Nat)
    (az : LabelMap) :
    lookupLabel (targetLabelMap inst o port az) "__meta_ec2_availability_zone" =
      inst.placement.availabilityZone := by
  unfold lookupLabel
  rw [lookupOpt_target_fixed _ _ _ _ _ (by decide),
    lookupOpt_preTag_base _ _ _ _ _ (by decide) (by decide),
    lookupOpt_base_az]
  rfl

theorem lookupLabel_target_azid (inst : Instance) (o : String) (port : Nat)
    (az : LabelMap) :
    lookupLabel (targetLabelMap inst o port az) "__meta_ec2_availability_zone_id" =
      lookupLabel az inst.placement.availabilityZone := by
  unfold lookupLabel
  rw [lookupOpt_target_fixed _ _ _ _ _ (by decide),
    lookupOpt_preTag_base _ _ _ _ _ (by decide) (by decide),
    lookupOpt_base_azid]
  rfl

theorem lookupOpt_target_vpc (inst : Instance) (o : String) (port : Nat)
    (az : LabelMap) :
    lookupOpt (targetLabelMap inst o port az) "__meta_ec2_vpc_id" =
      some inst.vpcId := by
  rw [lookupOpt_target_fixed _ _ _ _ _ (by decide),
    lookupOpt_preTag_base _ _ _ _ _ (by decide) (by decide),
    lookupOpt_base_vpc]

/-- The subnet-id entry of the pre-tag map when the VPC id is
non-empty. -/
theorem lookupOpt_preTag_subnet (inst : Instance) (o : String) (port : Nat)
    (az : LabelMap) (hv : ¬inst.vpcId = "") :
    lookupOpt (preTagLabels inst o port az) "__meta_ec2_subnet_id" =
      some ("," ++ String.intercalate ","
        (collectNI inst.networkInterfaceSet.items [] [] []).1 ++ ",") := by
  unfold preTagLabels
  rw [if_neg hv]
  split
  · rw [lookupOpt_append]
    simp [lookupOpt]
  · rw [List.append_assoc, lookupOpt_append]
    simp [lookupOpt, lookupOpt_append]

/-- The IPv6 entry of the pre-tag map when the VPC id is non-empty. -/
theorem lookupOpt_preTag_ipv6 (inst : Instance) (o : String) (port : Nat)
    (az : LabelMap) (hv : ¬inst.vpcId = "") :
    lookupOpt (preTagLabels inst o port az) "__meta_ec2_ipv6_addresses" =
      if (collectNI inst.networkInterfaceSet.items [] [] []).2 = [] then none
      else some ("," ++ String.intercalate ","
        (collectNI inst.networkInterfaceSet.items [] [] []).2 ++ ",") := by
  unfold preTagLabels
  rw [if_neg hv]
  split
  · rw [lookupOpt_append_of_none _ _ _ (by simp [lookupOpt]), lookupOpt_base_ipv6]
  · rw [List.append_assoc, lookupOpt_append]
    simp [lookupOpt]

/-- No tag label name collides with a key of the pre-tag map. -/
theorem lookupOpt_preTag_tagKey (inst : Instance) (o : String) (port : Nat)
    (az : LabelMap) (n : String) :
    lookupOpt (preTagLabels inst o port az) ("__meta_ec2_tag_" ++ n) = none := by
  have hn1 : ("__meta_ec2_tag_" : String) ++ n ≠ "__meta_ec2_subnet_id" :=
    tagKey_ne "__meta_ec2_subnet_id" (by decide) n
  have hn2 : ("__meta_ec2_tag_" : String) ++ n ≠ "__meta_ec2_ipv6_addresses" :=
    tagKey_ne "__meta_ec2_ipv6_addresses" (by decide) n
  have hsub : lookupOpt [("__meta_ec2_subnet_id",
      "," ++ String.intercalate ","
        (collectNI inst.networkInterfaceSet.items [] [] []).1 ++ ",")]
      ("__meta_ec2_tag_" ++ n) = none := by
    simp [lookupOpt, Ne.symm hn1]
  have hip6 : lookupOpt [("__meta_ec2_ipv6_addresses",
      "," ++ String.intercalate ","
        (collectNI inst.networkInterfaceSet.items [] [] []).2 ++ ",")]
      ("__meta_ec2_tag_" ++ n) = none := by
    simp [lookupOpt, Ne.symm hn2]
  unfold preTagLabels
  split
  · exact lookupOpt_base_tagKey inst o port az n
  split
  · rw [lookupOpt_append_of_none _ _ _ hsub]
    exact lookupOpt_base_tagKey inst o port az n
  · rw [List.append_assoc, lookupOpt_append_of_none, lookupOpt_base_tagKey]
    rw [lookupOpt_append_of_none _ _ _ hip6]
    exact hsub

/-- Reading a tag label name from the built label map is decided by the
tag loop alone. -/
theorem lookupOpt_target_tagKey (inst : Instance) (o : String) (port : Nat)
    (az : LabelMap) (n : String) :
    lookupOpt (targetLabelMap inst o port az) ("__meta_ec2_tag_" ++ n) =
      ((inst.tagSet.items.filter (fun t =>
          t.key ≠ "" ∧ t.value ≠ "" ∧ sanitizeLabelName t.key = n)).getLast?).map
        Tag.value := by
  unfold targetLabelMap
  rw [lookupOpt_append, lookupOpt_tagLabels, lookupOpt_preTag_tagKey]
  cases (inst.tagSet.items.filter (fun t =>
      t.key ≠ "" ∧ t.value ≠ "" ∧ sanitizeLabelName t.key = n)).getLast? <;> rfl

/-- The nested reservation/instance loop produces, in order, one label
map per private-IP-carrying instance. -/
theorem buildLabels_eq (rs : List Reservation) (port : Nat) (az : LabelMap) :
    buildLabels rs port az =
      rs.flatMap (fun r =>
        (r.instanceSet.items.filter (fun i => i.privateIpAddress ≠ "")).map
          (fun i => targetLabelMap i r.ownerId port az)) := by
  unfold buildLabels
  suffices h : ∀ ms : List LabelMap,
      rs.foldl (fun ms r =>
        r.instanceSet.items.foldl
          (fun acc i => i.appendTargetLabels acc r.ownerId port az) ms) ms =
        ms ++ rs.flatMap (fun r =>
          (r.instanceSet.items.filter (fun i => i.privateIpAddress ≠ "")).map
            (fun i => targetLabelMap i r.ownerId port az)) by
    simpa using h []
  induction rs with
  | nil => simp
  | cons r rest ih =>
    intro ms
    rw [List.foldl_cons, foldl_appendTargetLabels, ih, List.flatMap_cons,
      List.append_assoc]

/-! ### Pagination-loop lemmas -/

theorem getReservationsGo_cons_ok (r : InstancesResponse) (pages : List InstPage)
    (tok : String) (acc : List Reservation) (trace : List String) :
    getReservationsGo (Except.ok (some r) :: pages) tok acc trace =
      if r.nextPageToken = "" then
        (Except.ok (acc ++ r.reservationSet.items), trace ++ [tok])
      else getReservationsGo pages r.nextPageToken
        (acc ++ r.reservationSet.items) (trace ++ [tok]) := rfl

theorem getReservationsGo_cons_err (e : String) (pages : List InstPage)
    (tok : String) (acc : List Reservation) (trace : List String) :
    getReservationsGo (Except.error e :: pages) tok acc trace =
      (Except.error ("cannot obtain instances: " ++ e), trace ++ [tok]) := rfl

theorem getReservationsGo_cons_none (pages : List InstPage)
    (tok : String) (acc : List Reservation) (trace : List String) :
    getReservationsGo (Except.ok none :: pages) tok acc trace =
      (Except.error ("cannot parse instance list: cannot unmarshal InstancesResponse"),
       trace ++ [tok]) := rfl

/-- Running the loop over well-formed pages whose last page has an empty
next-token: the loop returns all reservations in page order, and the
tokens passed to the API are the empty token followed by each non-final
page's next-token. -/
theorem getReservationsGo_pages (resps : List InstancesResponse)
    (hmid : ∀ r ∈ resps.dropLast, r.nextPageToken ≠ "")
    (hlast : ∀ r, resps.getLast? = some r → r.nextPageToken = "")
    (hne : resps ≠ []) :
    ∀ (tok : String) (acc : List Reservation) (trace : List String),
    getReservationsGo (resps.map (fun r => Except.ok (some r))) tok acc trace =
      (Except.ok (acc ++ resps.flatMap (fun r => r.reservationSet.items)),
       trace ++ tok :: (resps.dropLast.map (fun r => r.nextPageToken))) := by
  induction resps with
  | nil => exact absurd rfl hne
  | cons r rest ih =>
    intro tok acc trace
    cases rest with
    | nil =>
      have h0 : r.nextPageToken = "" := hlast r (by simp)
      rw [List.map_cons, List.map_nil, getReservationsGo_cons_ok, if_pos h0]
      simp
    | cons b bs =>
      have hd : (r :: b :: bs).dropLast = r :: (b :: bs).dropLast :=
        List.dropLast_cons_of_ne_nil (by simp)
      have h0 : r.nextPageToken ≠ "" := by
        apply hmid r
        rw [hd]
        exact List.mem_cons_self _ _
      have ihh := ih
        (fun q hq => hmid q (by rw [hd]; exact List.mem_cons_of_mem _ hq))
        (fun q hq => hlast q (by rw [List.getLast?_cons_cons]; exact hq))
        (by simp)
        r.nextPageToken (acc ++ r.reservationSet.items) (trace ++ [tok])
      rw [List.map_cons, getReservationsGo_cons_ok, if_neg h0, ihh, hd]
      simp [List.flatMap_cons, List.append_assoc]

/-- A transport error on the page after any number of well-formed
non-final pages aborts the loop with the wrapped transport error. -/
theorem getReservationsGo_transport (goods : List InstancesResponse)
    (hgood : ∀ r ∈ goods, r.nextPageToken ≠ "") (e : String)
    (rest : List InstPage) :
    ∀ (tok : String) (acc : List Reservation) (trace : List String),
    (getReservationsGo
        (goods.map (fun r => Except.ok (some r)) ++ Except.error e :: rest)
        tok acc trace).1 =
      Except.error ("cannot obtain instances: " ++ e) := by
  induction goods with
  | nil =>
    intro tok acc trace
    rw [List.map_nil, List.nil_append, getReservationsGo_cons_err]
  | cons r gs ih =>
    intro tok acc trace
    have h0 : r.nextPageToken ≠ "" := hgood r (List.mem_cons_self _ _)
    rw [List.map_cons, List.cons_append, getReservationsGo_cons_ok, if_neg h0]
    exact ih (fun q hq => hgood q (List.mem_cons_of_mem _ hq)) _ _ _

/-- A malformed payload on the page after any number of well-formed
non-final pages aborts the loop with the wrapped parse error. -/
theorem getReservationsGo_parse (goods : List InstancesResponse)
    (hgood : ∀ r ∈ goods, r.nextPageToken ≠ "")
    (rest : List InstPage) :
    ∀ (tok : String) (acc : List Reservation) (trace : List String),
    (getReservationsGo
        (goods.map (fun r => Except.ok (some r)) ++ Except.ok none :: rest)
        tok acc trace).1 =
      Except.error ("cannot parse instance list: cannot unmarshal InstancesResponse") := by
  induction goods with
  | nil =>
    intro tok acc trace
    rw [List.map_nil, List.nil_append, getReservationsGo_cons_none]
  | cons r gs ih =>
    intro tok acc trace
    have h0 : r.nextPageToken ≠ "" := hgood r (List.mem_cons_self _ _)
    rw [List.map_cons, List.cons_append, getReservationsGo_cons_ok, if_neg h0]
    exact ih (fun q hq => hgood q (List.mem_cons_of_mem _ hq)) _ _ _

/-! ### Claim theorems -/

/-- C1, counterexample: for the instance `instIpv6Skip`, whose second
network interface has an empty subnet id and the IPv6 address `x`, the
rendered IPv6 label is `,a,b,c,` and differs from the comma-wrapped
join of every IPv6 address of every network interface (`,a,b,x,c,`):
the claim is false as stated. -/
theorem c1_counterexample :
    lookupLabel (targetLabelMap instIpv6Skip "o1" 9100 [])
        "__meta_ec2_ipv6_addresses" = ",a,b,c," ∧
    lookupLabel (targetLabelMap instIpv6Skip "o1" 9100 [])
        "__meta_ec2_ipv6_addresses" ≠
      "," ++ String.intercalate ","
        (instIpv6Skip.networkInterfaceSet.items.flatMap
          (fun ni => ni.ipv6AddressesSet.items)) ++ "," := by
  refine ⟨?_, ?_⟩ <;> decide

/-- C1, amended: for every instance with a non-empty private IP and a
non-empty VPC id, the IPv6-addresses label value is the comma-wrapped
join of every IPv6 address of every network interface whose subnet id
is non-empty, preserving interface order and intra-interface order,
with duplicates allowed; interfaces with an empty subnet id contribute
no IPv6 addresses, and when no address is collected the label is
absent. -/
theorem c1_amended (inst : Instance) (o : String) (port : Nat) (az : LabelMap)
    (ms : List LabelMap) (hip : inst.privateIpAddress ≠ "")
    (hvpc : inst.vpcId ≠ "") :
    inst.appendTargetLabels ms o port az = ms ++ [targetLabelMap inst o port az] ∧
    ((inst.networkInterfaceSet.items.filter (fun ni => ni.subnetId ≠ "")).flatMap
        (fun ni => ni.ipv6AddressesSet.items) ≠ [] →
      lookupLabel (targetLabelMap inst o port az) "__meta_ec2_ipv6_addresses" =
        "," ++ String.intercalate ","
          ((inst.networkInterfaceSet.items.filter
            (fun ni => ni.subnetId ≠ "")).flatMap
            (fun ni => ni.ipv6AddressesSet.items)) ++ ",") ∧
    ((inst.networkInterfaceSet.items.filter (fun ni => ni.subnetId ≠ "")).flatMap
        (fun ni => ni.ipv6AddressesSet.items) = [] →
      hasLabel (targetLabelMap inst o port az) "__meta_ec2_ipv6_addresses" =
        false) := by
  have hc := collectNI_eq inst.networkInterfaceSet.items [] [] []
  have h2 : (collectNI inst.networkInterfaceSet.items [] [] []).2 =
      (inst.networkInterfaceSet.items.filter (fun ni => ni.subnetId ≠ "")).flatMap
        (fun ni => ni.ipv6AddressesSet.items) := by
    rw [hc]
    rfl
  have ht : lookupOpt (tagLabels inst.tagSet.items) "__meta_ec2_ipv6_addresses" =
      none :=
    lookupOpt_tagLabels_ne _ _ (fun n => tagKey_ne _ (by decide) n)
  refine ⟨by rw [appendTargetLabels_eq, if_neg hip], ?_, ?_⟩
  · intro h6
    unfold lookupLabel
    rw [lookupOpt_target_fixed _ _ _ _ _ (by decide),
      lookupOpt_preTag_ipv6 _ _ _ _ hvpc, h2, if_neg h6]
    rfl
  · intro h6
    have hp : lookupOpt (preTagLabels inst o port az) "__meta_ec2_ipv6_addresses" =
        none := by
      rw [lookupOpt_preTag_ipv6 _ _ _ _ hvpc, h2, if_pos h6]
    simp [hasLabel, targetLabelMap, lookupOpt_append, ht, hp]

/-- C1, witness for the amended claim at a concrete instance. -/
theorem c1_amended_witness :
    lookupLabel (targetLabelMap instIpv6Skip "o1" 9100 [])
      "__meta_ec2_ipv6_addresses" = ",a,b,c," := by
  have h := c1_amended instIpv6Skip "o1" 9100 [] [] (by decide) (by decide)
  rw [h.2.1 (by decide)]
  decide

/-- C5: for every instance with a non-empty private IP and a non-empty
VPC id, the subnet-id label is present and is the comma-wrapped join of
the non-empty interface subnet ids, first-occurrence-deduplicated in
first-seen order, while the IPv6 label is present exactly when at least
one IPv6 address was collected. -/
theorem c5_confirmed (inst : Instance) (o : String) (port : Nat) (az : LabelMap)
    (ms : List LabelMap) (hip : inst.privateIpAddress ≠ "")
    (hvpc : inst.vpcId ≠ "") :
    inst.appendTargetLabels ms o port az = ms ++ [targetLabelMap inst o port az] ∧
    hasLabel (targetLabelMap inst o port az) "__meta_ec2_subnet_id" = true ∧
    lookupLabel (targetLabelMap inst o port az) "__meta_ec2_subnet_id" =
      "," ++ String.intercalate "," (dedupFirst
        ((inst.networkInterfaceSet.items.filter (fun ni => ni.subnetId ≠ "")).map
          (fun ni => ni.subnetId))) ++ "," ∧
    (hasLabel (targetLabelMap inst o port az) "__meta_ec2_ipv6_addresses" = true ↔
      (inst.networkInterfaceSet.items.filter (fun ni => ni.subnetId ≠ "")).flatMap
        (fun ni => ni.ipv6AddressesSet.items) ≠ []) := by
  have hc := collectNI_eq inst.networkInterfaceSet.items [] [] []
  have h1 : (collectNI inst.networkInterfaceSet.items [] [] []).1 =
      dedupFirst ((inst.networkInterfaceSet.items.filter
        (fun ni => ni.subnetId ≠ "")).map (fun ni => ni.subnetId)) := by
    rw [hc]
    rfl
  have h2 : (collectNI inst.networkInterfaceSet.items [] [] []).2 =
      (inst.networkInterfaceSet.items.filter (fun ni => ni.subnetId ≠ "")).flatMap
        (fun ni => ni.ipv6AddressesSet.items) := by
    rw [hc]
    rfl
  have hts : lookupOpt (tagLabels inst.tagSet.items) "__meta_ec2_subnet_id" =
      none :=
    lookupOpt_tagLabels_ne _ _ (fun n => tagKey_ne _ (by decide) n)
  have ht6 : lookupOpt (tagLabels inst.tagSet.items) "__meta_ec2_ipv6_addresses" =
      none :=
    lookupOpt_tagLabels_ne _ _ (fun n => tagKey_ne _ (by decide) n)
  refine ⟨by rw [appendTargetLabels_eq, if_neg hip], ?_, ?_, ?_⟩
  · simp [hasLabel, targetLabelMap, lookupOpt_append, hts,
      lookupOpt_preTag_subnet _ _ _ _ hvpc]
  · unfold lookupLabel
    rw [lookupOpt_target_fixed _ _ _ _ _ (by decide),
      lookupOpt_preTag_subnet _ _ _ _ hvpc, h1]
    rfl
  · rw [show hasLabel (targetLabelMap inst o port az) "__meta_ec2_ipv6_addresses" =
        (lookupOpt (preTagLabels inst o port az ++ tagLabels inst.tagSet.items)
          "__meta_ec2_ipv6_addresses").isSome from rfl,
      lookupOpt_append, ht6, lookupOpt_preTag_ipv6 _ _ _ _ hvpc, h2]
    by_cases h6 : (inst.networkInterfaceSet.items.filter
        (fun ni => ni.subnetId ≠ "")).flatMap
        (fun ni => ni.ipv6AddressesSet.items) = [] <;> simp [h6]

/-- C5, witness at the spec's example subnet ids `s1, s1, s2, "", s3`. -/
theorem c5_witness :
    lookupLabel (targetLabelMap instSubnets "o1" 9100 []) "__meta_ec2_subnet_id" =
      ",s1,s2,s3," := by
  have h := c5_confirmed instSubnets "o1" 9100 [] [] (by decide) (by decide)
  rw [h.2.2.1]
  decide

/-- C8: in the label map of an instance that produces one, a tag label
name reads as the value of the last tag with non-empty key and value
whose sanitized key matches, and such a label is present exactly when
some tag survives the filter: empty-key or empty-value tags produce no
label, and later colliding tags overwrite earlier ones. -/
theorem c8_confirmed (inst : Instance) (o : String) (port : Nat) (az : LabelMap)
    (ms : List LabelMap) (n : String) (hip : inst.privateIpAddress ≠ "") :
    inst.appendTargetLabels ms o port az = ms ++ [targetLabelMap inst o port az] ∧
    lookupLabel (targetLabelMap inst o port az) ("__meta_ec2_tag_" ++ n) =
      (((inst.tagSet.items.filter (fun t =>
          t.key ≠ "" ∧ t.value ≠ "" ∧ sanitizeLabelName t.key = n)).getLast?).map
        Tag.value).getD "" ∧
    (hasLabel (targetLabelMap inst o port az) ("__meta_ec2_tag_" ++ n) = true ↔
      (inst.tagSet.items.filter (fun t =>
        t.key ≠ "" ∧ t.value ≠ "" ∧ sanitizeLabelName t.key = n)) ≠ []) := by
  have hmap : ∀ (x : Option Tag), (x.map Tag.value).isSome = x.isSome := by
    intro x
    cases x <;> rfl
  refine ⟨by rw [appendTargetLabels_eq, if_neg hip], ?_, ?_⟩
  · unfold lookupLabel
    rw [lookupOpt_target_tagKey]
  · rw [show hasLabel (targetLabelMap inst o port az) ("__meta_ec2_tag_" ++ n) =
        (lookupOpt (targetLabelMap inst o port az)
          ("__meta_ec2_tag_" ++ n)).isSome from rfl,
      lookupOpt_target_tagKey, hmap, List.getLast?_isSome]

/-- C8, witness: the tags `Env:Prod → v1` and `Env_Prod → v2` sanitize
to the same label name and the later value wins. -/
theorem c8_witness :
    lookupLabel (targetLabelMap instTags "o1" 9100 [])
      ("__meta_ec2_tag_" ++ "Env_Prod") = "v2" := by
  have h := c8_confirmed instTags "o1" 9100 [] [] "Env_Prod" (by decide)
  rw [h.2.1]
  decide

/-- C10: for every instance with a non-empty private IP but an empty
VPC id, the produced label map has neither the subnet-id label nor the
IPv6 label, even when interfaces carry subnet ids or IPv6 addresses,
while the VPC-id label is present with the empty value. -/
theorem c10_confirmed (inst : Instance) (o : String) (port : Nat) (az : LabelMap)
    (ms : List LabelMap) (hip : inst.privateIpAddress ≠ "")
    (hvpc : inst.vpcId = "") :
    inst.appendTargetLabels ms o port az = ms ++ [targetLabelMap inst o port az] ∧
    hasLabel (targetLabelMap inst o port az) "__meta_ec2_subnet_id" = false ∧
    hasLabel (targetLabelMap inst o port az) "__meta_ec2_ipv6_addresses" = false ∧
    hasLabel (targetLabelMap inst o port az) "__meta_ec2_vpc_id" = true ∧
    lookupLabel (targetLabelMap inst o port az) "__meta_ec2_vpc_id" = "" := by
  have hpre : preTagLabels inst o port az = baseLabels inst o port az := by
    unfold preTagLabels
    rw [if_pos hvpc]
  have hts : lookupOpt (tagLabels inst.tagSet.items) "__meta_ec2_subnet_id" =
      none :=
    lookupOpt_tagLabels_ne _ _ (fun n => tagKey_ne _ (by decide) n)
  have ht6 : lookupOpt (tagLabels inst.tagSet.items) "__meta_ec2_ipv6_addresses" =
      none :=
    lookupOpt_tagLabels_ne _ _ (fun n => tagKey_ne _ (by decide) n)
  refine ⟨by rw [appendTargetLabels_eq, if_neg hip], ?_, ?_, ?_, ?_⟩
  · simp [hasLabel, targetLabelMap, lookupOpt_append, hts, hpre,
      lookupOpt_base_subnet]
  · simp [hasLabel, targetLabelMap, lookupOpt_append, ht6, hpre,
      lookupOpt_base_ipv6]
  · simp [hasLabel, lookupOpt_target_vpc]
  · unfold lookupLabel
    rw [lookupOpt_target_vpc, hvpc]
    rfl

/-- C10, witness at a concrete instance with interfaces but no VPC
id. -/
theorem c10_witness :
    hasLabel (targetLabelMap instNoVpc "o1" 9100 []) "__meta_ec2_subnet_id" =
      false ∧
    lookupLabel (targetLabelMap instNoVpc "o1" 9100 []) "__meta_ec2_vpc_id" =
      "" := by
  have h := c10_confirmed instNoVpc "o1" 9100 [] [] (by decide) (by decide)
  exact ⟨h.2.1, h.2.2.2.2⟩

/-- C2: the label-building loop produces exactly one label map per
instance with a non-empty private IP (instances without one produce
nothing), in order, and each map's address label is the private IP
joined with the configured port. -/
theorem c2_confirmed (rs : List Reservation) (port : Nat) (az : LabelMap) :
    buildLabels rs port az =
      ((rs.flatMap (fun r => r.instanceSet.items.map (fun i => (r.ownerId, i)))).filter
        (fun p => p.2.privateIpAddress ≠ "")).map
        (fun p => targetLabelMap p.2 p.1 port az) ∧
    (buildLabels rs port az).length =
      ((rs.flatMap (fun r => r.instanceSet.items)).filter
        (fun i => i.privateIpAddress ≠ "")).length ∧
    (buildLabels rs port az).map (fun m => lookupLabel m "__address__") =
      ((rs.flatMap (fun r => r.instanceSet.items)).filter
        (fun i => i.privateIpAddress ≠ "")).map
        (fun i => i.privateIpAddress ++ ":" ++ toString port) := by
  refine ⟨?_, ?_, ?_⟩
  · rw [buildLabels_eq, List.filter_flatMap, List.map_flatMap]
    induction rs with
    | nil => rfl
    | cons r rest ih =>
      rw [List.flatMap_cons, List.flatMap_cons, ih]
      congr 1
      rw [List.filter_map, List.map_map]
      rfl
  · rw [buildLabels_eq, List.filter_flatMap]
    induction rs with
    | nil => rfl
    | cons r rest ih =>
      rw [List.flatMap_cons, List.flatMap_cons, List.length_append,
        List.length_append, ih]
      simp
  · rw [buildLabels_eq, List.map_flatMap, List.filter_flatMap, List.map_flatMap]
    induction rs with
    | nil => rfl
    | cons r rest ih =>
      rw [List.flatMap_cons, List.flatMap_cons, ih]
      congr 1
      rw [List.map_map]
      apply List.map_congr_left
      intro i hi
      rw [Function.comp_apply, lookupLabel_target_address]
      rfl

/-- C3, counterexample: against a zone API whose first page carries the
continuation token `next-page` leading to a page with the zone
`us-east-1b`, the resolver returns only the first page's zones and the
second page's zone is absent from the map: no subsequent page is
fetched, so the claim is false as stated. -/
theorem c3_counterexample :
    getAvailabilityZones c3zoneApi = Except.ok [zoneA] ∧
    c3zoneApi "next-page" = Except.ok (some ⟨[zoneB], ""⟩) ∧
    lookupLabel (getAZMap c3zoneApi ⟨9100, none⟩).1 "us-east-1b" = "" ∧
    lookupLabel (getAZMap c3zoneApi ⟨9100, none⟩).1 "us-east-1a" = "use1-az1" :=
  ⟨rfl, rfl, rfl, rfl⟩

/-- C3, amended: the zone resolver's only resolution attempt issues a
single zone-list request with the empty token; whatever continuation
token the response document carries is dropped by the parse, no further
page is fetched, and exactly the first page's zones are returned. -/
theorem c3_amended (zapi : ZoneApi) (d : ZoneListDocument)
    (h : zapi "" = Except.ok (some d)) :
    getAvailabilityZones zapi = Except.ok d.zones := by
  unfold getAvailabilityZones
  rw [h]
  rfl

/-- C3, witness for the amended claim: the first page's zones are
returned even though its document carries a continuation token. -/
theorem c3_amended_witness :
    getAvailabilityZones c3zoneApi = Except.ok [zoneA] :=
  c3_amended c3zoneApi ⟨[zoneA], "next-page"⟩ rfl

/-- C4: once the zone map of a config has been resolved (even from a
failed fetch), the cache is populated, a second access returns the
cached map without any new fetch attempt, a failed fetch yields the
empty map whose every lookup is the empty string, and a zone-fetch
failure never turns the discovery call into an error. -/
theorem c4_confirmed (zapi : ZoneApi) (cfg : ApiConfig) (h : cfg.azMap = none) :
    (getAZMap zapi cfg).2.2 = 1 ∧
    (getAZMap zapi cfg).2.1.azMap = some (getAZMap zapi cfg).1 ∧
    (getAZMap zapi (getAZMap zapi cfg).2.1).1 = (getAZMap zapi cfg).1 ∧
    (getAZMap zapi (getAZMap zapi cfg).2.1).2.1 = (getAZMap zapi cfg).2.1 ∧
    (getAZMap zapi (getAZMap zapi cfg).2.1).2.2 = 0 ∧
    (∀ e, getAvailabilityZones zapi = Except.error e →
      (getAZMap zapi cfg).1 = [] ∧
      ∀ name, lookupLabel (getAZMap zapi cfg).1 name = "") ∧
    (∀ (pages : List InstPage) (rs : List Reservation),
      getReservations pages = Except.ok rs →
      (getInstancesLabels pages zapi cfg).1 =
        Except.ok (buildLabels rs cfg.port (getAZMap zapi cfg).1)) := by
  have hlast : ∀ (pages : List InstPage) (rs : List Reservation),
      getReservations pages = Except.ok rs →
      (getInstancesLabels pages zapi cfg).1 =
        Except.ok (buildLabels rs cfg.port (getAZMap zapi cfg).1) := by
    intro pages rs hres
    simp [getInstancesLabels, hres]
  cases hz : getAvailabilityZones zapi with
  | error e =>
    have e1 : getAZMap zapi cfg = ([], { cfg with azMap := some [] }, 1) := by
      simp [getAZMap, h, hz]
    refine ⟨by rw [e1], by rw [e1], by rw [e1]; rfl, by rw [e1]; rfl,
      by rw [e1]; rfl, ?_, hlast⟩
    intro e2 _
    rw [e1]
    exact ⟨rfl, fun name => rfl⟩
  | ok azs =>
    have e1 : getAZMap zapi cfg =
        (azs.map (fun az => (az.zoneName, az.zoneId)),
         { cfg with azMap := some (azs.map (fun az => (az.zoneName, az.zoneId))) },
         1) := by
      simp [getAZMap, h, hz]
    refine ⟨by rw [e1], by rw [e1], by rw [e1]; rfl, by rw [e1]; rfl,
      by rw [e1]; rfl, ?_, hlast⟩
    intro e2 he2
    exact absurd he2 (by simp)

/-- C4, witness: with an always-failing zone API, the first access
fetches once and caches the empty map, and the second access fetches
nothing and returns it. -/
theorem c4_witness :
    (getAZMap zapiFail ⟨9100, none⟩).2.2 = 1 ∧
    (getAZMap zapiFail ((getAZMap zapiFail ⟨9100, none⟩).2.1)).2.2 = 0 ∧
    (getAZMap zapiFail ⟨9100, none⟩).1 = [] ∧
    lookupLabel (getAZMap zapiFail ⟨9100, none⟩).1 "us-east-1a" = "" := by
  have h := c4_confirmed zapiFail ⟨9100, none⟩ rfl
  have hf := h.2.2.2.2.2.1 ("cannot obtain availability zones: " ++ "request failed") rfl
  exact ⟨h.1, h.2.2.2.2.1, hf.1, hf.2 "us-east-1a"⟩

/-- C6: for any page sequence whose non-final pages carry a non-empty
next-token and whose last page an empty one, the loop starts from the
empty token, passes each page's next-token to the following call, stops
at the empty one, and returns the concatenation of all pages'
reservations in page order. -/
theorem c6_confirmed (resps : List InstancesResponse) (last : InstancesResponse)
    (hlast : resps.getLast? = some last) (hend : last.nextPageToken = "")
    (hmid : ∀ r ∈ resps.dropLast, r.nextPageToken ≠ "") :
    getReservations (resps.map (fun r => Except.ok (some r))) =
      Except.ok (resps.flatMap (fun r => r.reservationSet.items)) ∧
    getReservationsTrace (resps.map (fun r => Except.ok (some r))) =
      "" :: resps.dropLast.map (fun r => r.nextPageToken) := by
  have hne : resps ≠ [] := by
    intro h0
    rw [h0] at hlast
    simp at hlast
  have hl : ∀ r, resps.getLast? = some r → r.nextPageToken = "" := by
    intro r hr
    rw [hlast] at hr
    rw [← Option.some.inj hr]
    exact hend
  have h := getReservationsGo_pages resps hmid hl hne "" [] []
  unfold getReservations getReservationsTrace
  rw [h]
  exact ⟨by simp, by simp⟩

/-- C6, witness at three concrete pages with tokens `t2`, `t3`, and the
empty token. -/
theorem c6_witness :
    getReservations (c6resps.map (fun r => Except.ok (some r))) =
      Except.ok (c6resps.flatMap (fun r => r.reservationSet.items)) ∧
    getReservationsTrace (c6resps.map (fun r => Except.ok (some r))) =
      ["", "t2", "t3"] := by
  have h := c6_confirmed c6resps (pageOf [resv "o3" [instTags]] "")
    (by decide) (by decide) (by decide)
  exact ⟨h.1, by rw [h.2]; decide⟩

/-- C7: a transport error or a malformed payload on any page after any
number of well-formed pages makes the whole discovery call return the
wrapped error and leave the config untouched: no label map and no
reservation accumulated on earlier pages survives. -/
theorem c7_confirmed (goods : List InstancesResponse)
    (hgood : ∀ r ∈ goods, r.nextPageToken ≠ "")
    (e : String) (rest : List InstPage) (zapi : ZoneApi) (cfg : ApiConfig) :
    getInstancesLabels
        (goods.map (fun r => Except.ok (some r)) ++ Except.error e :: rest)
        zapi cfg =
      (Except.error ("cannot obtain instances: " ++ e), cfg) ∧
    getInstancesLabels
        (goods.map (fun r => Except.ok (some r)) ++ Except.ok none :: rest)
        zapi cfg =
      (Except.error ("cannot parse instance list: cannot unmarshal InstancesResponse"),
       cfg) := by
  have h1 := getReservationsGo_transport goods hgood e rest "" [] []
  have h2 := getReservationsGo_parse goods hgood rest "" [] []
  constructor
  · simp [getInstancesLabels, getReservations, h1]
  · simp [getInstancesLabels, getReservations, h2]

/-- C7, witness: one well-formed page followed by a transport error
aborts the whole call. -/
theorem c7_witness :
    getInstancesLabels
        ([c7goodPage].map (fun r => Except.ok (some r)) ++
          Except.error "boom" :: [])
        zapiOk ⟨9100, none⟩ =
      (Except.error ("cannot obtain instances: " ++ "boom"),
       (⟨9100, none⟩ : ApiConfig)) :=
  (c7_confirmed [c7goodPage] (by decide) "boom" [] zapiOk ⟨9100, none⟩).1

/-- C9: every label map of a successful discovery call has a non-empty
address label and all 17 fixed label names, and its availability-zone-id
label is the zone map's entry for its availability-zone label (empty
string when absent). -/
theorem c9_confirmed (pages : List InstPage) (zapi : ZoneApi) (cfg : ApiConfig)
    (ms : List LabelMap) (cfg2 : ApiConfig)
    (h : getInstancesLabels pages zapi cfg = (Except.ok ms, cfg2)) :
    ∀ m ∈ ms,
      lookupLabel m "__address__" ≠ "" ∧
      (∀ s ∈ fixedLabelNames, hasLabel m s = true) ∧
      lookupLabel m "__meta_ec2_availability_zone_id" =
        lookupLabel (getAZMap zapi cfg).1
          (lookupLabel m "__meta_ec2_availability_zone") := by
  unfold getInstancesLabels at h
  cases hres : getReservations pages with
  | error e =>
    rw [hres] at h
    simp at h
  | ok rs =>
    rw [hres] at h
    have hms : ms = buildLabels rs cfg.port (getAZMap zapi cfg).1 := by
      have hfst := congrArg Prod.fst h
      simp at hfst
      exact hfst.symm
    intro m hm
    rw [hms, buildLabels_eq] at hm
    obtain ⟨r, _, hm2⟩ := List.mem_flatMap.mp hm
    obtain ⟨i, _, rfl⟩ := List.mem_map.mp hm2
    refine ⟨?_, ?_, ?_⟩
    · rw [lookupLabel_target_address]
      exact joinHostPort_ne_empty _ _
    · intro s hs
      exact hasLabel_target_fixed _ _ _ _ s hs
    · rw [lookupLabel_target_azid, lookupLabel_target_az]

/-- C9, witness at a one-page discovery run producing two label maps. -/
theorem c9_witness :
    lookupLabel (targetLabelMap instIpv6Skip "owner1" 9100
        [("us-east-1a", "use1-az1")]) "__address__" ≠ "" ∧
    lookupLabel (targetLabelMap instIpv6Skip "owner1" 9100
        [("us-east-1a", "use1-az1")]) "__meta_ec2_availability_zone_id" =
      lookupLabel (getAZMap zapiOk (⟨9100, none⟩ : ApiConfig)).1
        (lookupLabel (targetLabelMap instIpv6Skip "owner1" 9100
          [("us-east-1a", "use1-az1")]) "__meta_ec2_availability_zone") := by
  have h := c9_confirmed c9pages zapiOk ⟨9100, none⟩
    (buildLabels [resv "owner1" [instIpv6Skip, instNoIp, instNoVpc]] 9100
      [("us-east-1a", "use1-az1")])
    ⟨9100, some [("us-east-1a", "use1-az1")]⟩ rfl
    (targetLabelMap instIpv6Skip "owner1" 9100 [("us-east-1a", "use1-az1")])
    (by decide)
  exact ⟨h.1, h.2.2⟩

end EC2
